import Mathlib

/-!
Verification of the MCP streamable-HTTP examples repository.

The repository wires a third-party MCP framework into two example servers:
a stateless arithmetic tool server
(`streamable_http_server/1-stateless-streamable/server2.py`) and a
Google-OAuth-protected resource server
(`streamable_http_server/2-google-oauth-simple-server/server.py`).

The configuration, startup check, health endpoint and arithmetic tools are
embedded directly from the Python source.  The OAuth delegation facade
(discovery, DCR, authorize/callback/token state machine, bearer validation)
lives in the imported `fastmcp` library, outside this repository's source
tree; those parts are modelled from the specification, and each such
definition carries a doc comment saying so.
-/

namespace MCPStreamableHttp

/-- The process environment, modelling Python `os.environ` after
`dotenv.load_dotenv()`: a partial map from variable names to values. -/
def Env : Type := String → Option String

/-- Python `os.environ.get(k, d)`: the value of `k`, or the default `d`. -/
def envGet (env : Env) (k d : String) : String := (env k).getD d

/-- The environment in which no configuration variable is set, so every
lookup falls back to the source's defaults. -/
def emptyEnv : Env := fun _ => none

/-- `BASE_URL = os.environ.get("RS_BASE_URL", "http://localhost:8005")`
(server.py line 83). -/
def BASE_URL (env : Env) : String := envGet env "RS_BASE_URL" "http://localhost:8005"

/-- `MCP_PATH = os.environ.get("MCP_PATH", "/mcp")` (server.py line 94). -/
def MCP_PATH (env : Env) : String := envGet env "MCP_PATH" "/mcp"

/-- `GOOGLE_CLIENT_ID = os.environ.get("GOOGLE_CLIENT_ID", "")`
(server.py line 99). -/
def GOOGLE_CLIENT_ID (env : Env) : String := envGet env "GOOGLE_CLIENT_ID" ""

/-- `GOOGLE_CLIENT_SECRET = os.environ.get("GOOGLE_CLIENT_SECRET", "")`
(server.py line 100). -/
def GOOGLE_CLIENT_SECRET (env : Env) : String := envGet env "GOOGLE_CLIENT_SECRET" ""

/-- Split a character list at every occurrence of `sep`, keeping empty
pieces, as Python `str.split(sep)` does on the underlying characters. -/
def splitCharList (sep : Char) : List Char → List (List Char)
  | [] => [[]]
  | c :: cs =>
    match splitCharList sep cs with
    | [] => [[]]
    | piece :: pieces =>
      if c = sep then [] :: piece :: pieces else (c :: piece) :: pieces

/-- Python `s.split(sep)` for a one-character separator: split on every
occurrence of `sep`, keeping empty pieces. -/
def pySplit (sep : Char) (s : String) : List String :=
  (splitCharList sep s.toList).map (fun cs => String.mk cs)

/-- `REQUIRED_SCOPES = os.environ.get("REQUIRED_SCOPES", "...").split()`
(server.py lines 113-116).  Python `str.split()` with no argument splits on
whitespace runs and discards empty pieces; the configured values separate
scopes with single spaces. -/
def REQUIRED_SCOPES (env : Env) : List String :=
  (pySplit ' '
    (envGet env "REQUIRED_SCOPES"
      "openid https://www.googleapis.com/auth/userinfo.email https://www.googleapis.com/auth/userinfo.profile")).filter
    (fun s => s ≠ "")

/-- `ALLOWED_CLIENT_REDIRECTS = os.environ.get("ALLOWED_CLIENT_REDIRECT_URIS",
"http://localhost:*;http://127.0.0.1:*").split(";")` (server.py lines 122-125). -/
def ALLOWED_CLIENT_REDIRECTS (env : Env) : List String :=
  pySplit ';' (envGet env "ALLOWED_CLIENT_REDIRECT_URIS" "http://localhost:*;http://127.0.0.1:*")

/-- `RESOURCE = f"\x7bBASE_URL\x7d\x7bMCP_PATH\x7d"` (server.py line 131):
the canonical resource indicator, the exact concatenation with no
normalization. -/
def RESOURCE (env : Env) : String := BASE_URL env ++ MCP_PATH env

/-- The startup credential check (server.py lines 255-263):
`if not GOOGLE_CLIENT_ID or not GOOGLE_CLIENT_SECRET: raise SystemExit(1)`.
Python `not s` on a string is true exactly when the string is empty.
`Except.error c` models `SystemExit(c)`. -/
def startupCheck (env : Env) : Except Nat Unit :=
  if GOOGLE_CLIENT_ID env = "" ∨ GOOGLE_CLIENT_SECRET env = "" then
    Except.error 1
  else
    Except.ok ()

/-- The `__main__` entrypoint (server.py lines 255-287): run the credential
check; only when it passes is `mcp.run(...)` reached and the HTTP server
started.  The `.ok` payload marks that the server is serving requests. -/
def serverMain (env : Env) : Except Nat String :=
  match startupCheck env with
  | Except.error c => Except.error c
  | Except.ok () => Except.ok "serving"

/-- The JSON object returned by the `/healthz` route (server.py lines
240-248). -/
structure HealthzResponse where
  status : String
  base_url : String
  mcp_path : String
  resource : String
  scopes : List String
deriving DecidableEq, Repr

/-- The `/healthz` handler (server.py lines 236-248), registered with
`@mcp.custom_route("/healthz", methods=["GET"])` and hence outside the
bearer-token guard: it receives the raw request and returns a JSON body
built only from startup configuration. -/
def healthz (env : Env) (_request : String) : HealthzResponse :=
  { status := "ok"
  , base_url := BASE_URL env
  , mcp_path := MCP_PATH env
  , resource := RESOURCE env
  , scopes := REQUIRED_SCOPES env }

/-! ### Stateless math server (server2.py)

Python floats are modelled as rationals: the division-by-zero guard in the
source compares `params.b == 0` exactly, and the claims under check concern
the guard and the returned fields, not binary floating-point rounding.
Python f-string rendering of a number is modelled by a rendering function
passed as a parameter. -/

/-- Input schema of both tools (server2.py lines 69-71). -/
structure ArithmeticInput where
  a : ℚ
  b : ℚ
deriving DecidableEq, Repr

/-- Output schema of both tools (server2.py lines 75-77). -/
structure ArithmeticResult where
  result : ℚ
  expression : String
deriving DecidableEq, Repr

/-- `multiply_numbers` (server2.py lines 80-86): returns the product and the
rendered expression; it has no failure path.  `render` models Python
f-string rendering of a float. -/
def multiply_numbers (render : ℚ → String) (params : ArithmeticInput) : ArithmeticResult :=
  { result := params.a * params.b
  , expression := render params.a ++ " * " ++ render params.b }

/-- `divide_numbers` (server2.py lines 89-97): raises
`ValueError("Division by zero is not allowed.")` when `b == 0`, otherwise
returns the quotient and the rendered expression.  `Except.error msg`
models the raised `ValueError(msg)`. -/
def divide_numbers (render : ℚ → String) (params : ArithmeticInput) :
    Except String ArithmeticResult :=
  if params.b = 0 then
    Except.error "Division by zero is not allowed."
  else
    Except.ok
      { result := params.a / params.b
      , expression := render params.a ++ " / " ++ render params.b }

/-! ### OAuth delegation facade

The facade itself (discovery, DCR, authorize/callback/token, bearer
validation) is implemented by the imported `fastmcp` library and is not in
this repository's source tree; the definitions below are modelled from the
specification of the facade.  Time is modelled in seconds as `Nat`. -/

/-- Modelled from the spec: the client-facing OAuth error taxonomy of the
facade (spec section 7), absent from the repository source. -/
inductive OAuthError where
  | invalid_request
  | invalid_client
  | invalid_redirect_uri
  | invalid_target
  | invalid_state
  | invalid_grant
  | upstream_error
  | unauthorized
deriving DecidableEq, Repr

/-- Modelled from the spec: a PKCE code-challenge method (S256 or plain),
part of the library-implemented authorization flow. -/
inductive PKCEMethod where
  | s256
  | plain
deriving DecidableEq, Repr

/-- Modelled from the spec: an IssuedToken handed to a client after a
successful upstream exchange — token value, bound resource indicator,
bound scopes and expiry (spec section 3). -/
structure IssuedToken where
  token : String
  resource : String
  scopes : List String
  expiresAt : Nat
deriving DecidableEq, Repr

/-- Modelled from the spec: one in-flight authorization attempt
(spec section 3) — state token, owning client, the client's PKCE
challenge, redirect URI, requested resource and scopes, creation time and
a consumed flag recording first use. -/
structure AuthorizationRequestState where
  stateToken : String
  client_id : String
  codeChallenge : String
  codeChallengeMethod : PKCEMethod
  redirectUri : String
  resource : String
  scopes : List String
  createdAt : Nat
  consumed : Bool
deriving DecidableEq, Repr

/-- Modelled from the spec: the fixed TTL of an AuthorizationRequestState,
10 minutes, in seconds. -/
def authStateTTL : Nat := 600

/-- Modelled from the spec: the facade's store of in-flight authorization
attempts, keyed by state token. -/
def AuthStateStore : Type := String → Option AuthorizationRequestState

/-- The auth-state store holding no in-flight attempt at all. -/
def emptyAuthStore : AuthStateStore := fun _ => none

/-- Modelled from the spec: mark the AuthorizationRequestState with the
given state token consumed, leaving every other entry unchanged. -/
def consumeAuthState (store : AuthStateStore) (t : String) : AuthStateStore :=
  fun k =>
    if k = t then
      (store k).map (fun st => { st with consumed := true })
    else
      store k

/-- Modelled from the spec: the upstream callback endpoint's state-token
redemption (spec section 4.4) — look the AuthorizationRequestState up by
state token; fail with invalid_state if absent, already consumed, or past
its TTL; otherwise atomically mark it consumed and hand the recorded
attempt to the rest of the callback. -/
def upstreamCallback (store : AuthStateStore) (t : String) (now : Nat) :
    Except OAuthError (AuthorizationRequestState × AuthStateStore) :=
  match store t with
  | none => Except.error OAuthError.invalid_state
  | some st =>
    if st.consumed then
      Except.error OAuthError.invalid_state
    else if st.createdAt + authStateTTL < now then
      Except.error OAuthError.invalid_state
    else
      Except.ok (st, consumeAuthState store t)

/-- Modelled from the spec: one redemption request against the state store
(the applied step of `upstreamCallback`): its success flag and the store it
leaves behind (unchanged on failure). -/
def callbackStep (store : AuthStateStore) (req : String × Nat) : Bool × AuthStateStore :=
  match upstreamCallback store req.1 req.2 with
  | Except.ok (_, store2) => (true, store2)
  | Except.error _ => (false, store)

/-- Modelled from the spec: how many redemptions of state token `t` succeed
when the listed requests are processed in order against the store. -/
def countRedemptions (store : AuthStateStore) (t : String) :
    List (String × Nat) → Nat
  | [] => 0
  | req :: reqs =>
    let step := callbackStep store req
    (if step.1 = true ∧ req.1 = t then 1 else 0) + countRedemptions step.2 t reqs

/-- Modelled from the spec: the fixed lifetime of a client-facing
authorization code, 60 seconds. -/
def clientCodeTTL : Nat := 60

/-- Modelled from the spec: a client-facing authorization code record —
the client's recorded PKCE challenge and method, the IssuedToken prepared
for it, its creation time and a consumed flag (spec sections 4.4-4.5). -/
structure ClientCode where
  codeChallenge : String
  codeChallengeMethod : PKCEMethod
  issued : IssuedToken
  createdAt : Nat
  consumed : Bool
deriving DecidableEq, Repr

/-- Modelled from the spec: the facade's store of client-facing
authorization codes. -/
def CodeStore : Type := String → Option ClientCode

/-- Modelled from the spec: mark the client-facing code consumed, leaving
every other entry unchanged. -/
def consumeCode (codes : CodeStore) (c : String) : CodeStore :=
  fun k =>
    if k = c then
      (codes k).map (fun cc => { cc with consumed := true })
    else
      codes k

/-- Modelled from the spec: the standard PKCE comparison — plain compares
the verifier to the challenge directly, S256 compares the base64url-encoded
SHA-256 digest of the verifier, here abstracted as the hash parameter `h`. -/
def pkceMatch (h : String → String) (method : PKCEMethod) (challenge verifier : String) : Bool :=
  match method with
  | PKCEMethod.plain => verifier = challenge
  | PKCEMethod.s256 => h verifier = challenge

/-- Modelled from the spec: the client-facing token endpoint
(spec section 4.5) — look up the code; fail with invalid_grant if absent,
already used, or past its 60-second lifetime (regardless of the verifier);
otherwise compare the PKCE verifier against the recorded challenge,
returning the prepared IssuedToken and atomically consuming the code on a
match and failing with invalid_grant on a mismatch. -/
def tokenEndpoint (h : String → String) (codes : CodeStore) (code verifier : String)
    (now : Nat) : Except OAuthError (IssuedToken × CodeStore) :=
  match codes code with
  | none => Except.error OAuthError.invalid_grant
  | some cc =>
    if cc.consumed then
      Except.error OAuthError.invalid_grant
    else if cc.createdAt + clientCodeTTL < now then
      Except.error OAuthError.invalid_grant
    else if pkceMatch h cc.codeChallengeMethod cc.codeChallenge verifier then
      Except.ok (cc.issued, consumeCode codes code)
    else
      Except.error OAuthError.invalid_grant

/-- Modelled from the spec: one token-exchange request applied to the code
store: its outcome and the store it leaves behind (unchanged on failure). -/
def exchangeStep (h : String → String) (codes : CodeStore) (code verifier : String)
    (now : Nat) : Except OAuthError IssuedToken × CodeStore :=
  match tokenEndpoint h codes code verifier now with
  | Except.ok (tok, codes2) => (Except.ok tok, codes2)
  | Except.error e => (Except.error e, codes)

/-- Modelled from the spec: two token-exchange requests racing on the same
code, executed under an interleaving of the atomic consume operation: when
`firstWins` the first request's consume lands first, otherwise the
second's.  Returns the pair of outcomes (first request, second request). -/
def raceExchange (h : String → String) (codes : CodeStore) (code : String)
    (v1 v2 : String) (n1 n2 : Nat) (firstWins : Bool) :
    Except OAuthError IssuedToken × Except OAuthError IssuedToken :=
  if firstWins then
    let s1 := exchangeStep h codes code v1 n1
    let s2 := exchangeStep h s1.2 code v2 n2
    (s1.1, s2.1)
  else
    let s2 := exchangeStep h codes code v2 n2
    let s1 := exchangeStep h s2.2 code v1 n1
    (s1.1, s2.1)

/-- Modelled from the spec: glob matching of a redirect URI against one
allow-list pattern, where `*` matches any (possibly empty) run of
characters and every other character matches itself; a `*` consumes some
suffix of the remaining input, so the rest of the pattern is tried against
every tail. -/
def globMatch : List Char → List Char → Bool
  | [], s => s.isEmpty
  | '*' :: pat, s => (s.tails).any (fun s2 => globMatch pat s2)
  | _ :: _, [] => false
  | p :: pat, c :: s => p = c && globMatch pat s

/-- Modelled from the spec: whether a redirect URI matches at least one
pattern of the administratively configured allow-list. -/
def matchesAllowList (patterns : List String) (uri : String) : Bool :=
  patterns.any (fun pat => globMatch pat.toList uri.toList)

/-- Modelled from the spec: a dynamically registered caller identity —
generated client_id, its redirect URIs and a creation timestamp
(spec section 3). -/
structure RegisteredClient where
  client_id : String
  redirect_uris : List String
  createdAt : Nat
deriving DecidableEq, Repr

/-- Modelled from the spec: the dynamic client registration endpoint
(spec section 4.2) — every requested redirect URI must match one of the
configured allow-list patterns; reject with invalid_redirect_uri
otherwise, and otherwise mint a RegisteredClient under the freshly
generated `freshId`. -/
def registerClient (allowlist : List String) (freshId : String)
    (uris : List String) (now : Nat) : Except OAuthError RegisteredClient :=
  if uris.all (fun uri => matchesAllowList allowlist uri) then
    Except.ok { client_id := freshId, redirect_uris := uris, createdAt := now }
  else
    Except.error OAuthError.invalid_redirect_uri

/-- Modelled from the spec: the authorize endpoint's resource-indicator
check (spec section 4.3) — the requested resource must equal the
configured resource `BASE_URL ++ MCP_PATH` byte-for-byte; any other value,
a trailing-slash variant included, is rejected with invalid_target. -/
def authorizeResourceCheck (env : Env) (resourceParam : String) : Except OAuthError Unit :=
  if resourceParam = RESOURCE env then
    Except.ok ()
  else
    Except.error OAuthError.invalid_target

/-- Modelled from the spec: the facade's store of issued bearer tokens,
keyed by token value. -/
def TokenStore : Type := String → Option IssuedToken

/-- Modelled from the spec: the bearer token validator guarding every
protected request (spec section 4.6) — the token must be present, known,
unexpired, and bound byte-for-byte to the exact URL of the endpoint being
accessed; any failure is `unauthorized`. -/
def validateBearer (tokens : TokenStore) (authHeader : Option String)
    (endpointUrl : String) (now : Nat) : Except OAuthError IssuedToken :=
  match authHeader with
  | none => Except.error OAuthError.unauthorized
  | some tv =>
    match tokens tv with
    | none => Except.error OAuthError.unauthorized
    | some tok =>
      if tok.expiresAt < now then
        Except.error OAuthError.unauthorized
      else if tok.resource = endpointUrl then
        Except.ok tok
      else
        Except.error OAuthError.unauthorized

/-- Modelled from the spec: the protected-resource metadata URL the 401
challenge points at (`BASE_URL + "/.well-known/oauth-protected-resource"`,
server.py quick-test guide). -/
def protectedResourceMetadataUrl (env : Env) : String :=
  BASE_URL env ++ "/.well-known/oauth-protected-resource"

/-- Modelled from the spec: the structured HTTP response of the protected
RPC endpoint — status, optional WWW-Authenticate header and body. -/
structure McpResponse where
  status : Nat
  wwwAuthenticate : Option String
  body : String
deriving DecidableEq, Repr

/-- Modelled from the spec: the protected RPC endpoint `POST /mcp` — run
the bearer validator against the configured resource URL; on any failure
return a structured 401 whose WWW-Authenticate header points at the
protected-resource metadata URL without running the tool handler; on
success dispatch to the handler.  The Bool records whether the handler
ran. -/
def handleMcp (env : Env) (tokens : TokenStore) (authHeader : Option String)
    (now : Nat) (handler : IssuedToken → String) : McpResponse × Bool :=
  match validateBearer tokens authHeader (RESOURCE env) now with
  | Except.error _ =>
    ({ status := 401
     , wwwAuthenticate := some
         ("Bearer error=\"invalid_token\", resource_metadata=\""
           ++ protectedResourceMetadataUrl env ++ "\"")
     , body := "unauthorized" }, false)
  | Except.ok tok =>
    ({ status := 200, wwwAuthenticate := none, body := handler tok }, true)

/-! ### Helper lemmas -/

/-- In `store`, the attempt keyed by `t` (if any) is already consumed. -/
def consumedAt (store : AuthStateStore) (t : String) : Prop :=
  ∀ st, store t = some st → st.consumed = true

lemma consumeAuthState_self (store : AuthStateStore) (t : String) :
    consumeAuthState store t t =
      (store t).map (fun st => { st with consumed := true }) := by
  unfold consumeAuthState
  rw [if_pos rfl]

lemma consumeAuthState_other (store : AuthStateStore) (c t : String) (htc : t ≠ c) :
    consumeAuthState store c t = store t := by
  unfold consumeAuthState
  rw [if_neg htc]

lemma consumedAt_consume (store : AuthStateStore) (t : String) :
    consumedAt (consumeAuthState store t) t := by
  intro st h
  rw [consumeAuthState_self] at h
  cases hst : store t with
  | none => rw [hst] at h; cases h
  | some st0 =>
    rw [hst, Option.map_some'] at h
    injection h with h2
    exact h2 ▸ rfl

lemma consumedAt_preserved (store : AuthStateStore) (c t : String)
    (h : consumedAt store t) : consumedAt (consumeAuthState store c) t := by
  intro st hst
  by_cases htc : t = c
  · subst htc
    rw [consumeAuthState_self] at hst
    cases hst0 : store t with
    | none => rw [hst0] at hst; cases hst
    | some st0 =>
      rw [hst0, Option.map_some'] at hst
      injection hst with h2
      exact h2 ▸ rfl
  · rw [consumeAuthState_other store c t htc] at hst
    exact h st hst

lemma upstreamCallback_of_consumed (store : AuthStateStore) (t : String) (now : Nat)
    (h : consumedAt store t) :
    upstreamCallback store t now = Except.error OAuthError.invalid_state := by
  unfold upstreamCallback
  cases hst : store t with
  | none => rfl
  | some st => simp [h st hst]

lemma callbackStep_preserves (store : AuthStateStore) (req : String × Nat) (t : String)
    (h : consumedAt store t) : consumedAt (callbackStep store req).2 t := by
  unfold callbackStep upstreamCallback
  cases hst : store req.1 with
  | none => simpa using h
  | some st =>
    by_cases h1 : st.consumed <;> by_cases h2 : st.createdAt + authStateTTL < req.2 <;>
      simp [h1, h2] <;>
      first
        | exact h
        | exact consumedAt_preserved store req.1 t h

lemma callbackStep_no_success (store : AuthStateStore) (req : String × Nat)
    (h : consumedAt store req.1) : (callbackStep store req).1 = false := by
  unfold callbackStep
  rw [upstreamCallback_of_consumed store req.1 req.2 h]

lemma countRedemptions_eq_zero (t : String) (reqs : List (String × Nat)) :
    ∀ store : AuthStateStore, consumedAt store t → countRedemptions store t reqs = 0 := by
  induction reqs with
  | nil => intro store _; rfl
  | cons req reqs ih =>
    intro store h
    unfold countRedemptions
    have hpres := callbackStep_preserves store req t h
    by_cases hr : req.1 = t
    · have hfail : (callbackStep store req).1 = false :=
        callbackStep_no_success store req (by rw [hr]; exact h)
      simp [hfail, ih _ hpres]
    · simp [hr, ih _ hpres]

lemma consumeCode_self (codes : CodeStore) (code : String) :
    consumeCode codes code code = (codes code).map (fun cc => { cc with consumed := true }) := by
  simp [consumeCode]

lemma tokenEndpoint_success (h : String → String) (codes : CodeStore) (code v : String)
    (n : Nat) (cc : ClientCode) (hlook : codes code = some cc)
    (hfresh : cc.consumed = false)
    (hm : pkceMatch h cc.codeChallengeMethod cc.codeChallenge v = true)
    (hl : n ≤ cc.createdAt + clientCodeTTL) :
    tokenEndpoint h codes code v n = Except.ok (cc.issued, consumeCode codes code) := by
  simp [tokenEndpoint, hlook, hfresh, Nat.not_lt.mpr hl, hm]

lemma tokenEndpoint_consumed_code (h : String → String) (codes : CodeStore)
    (code : String) (cc : ClientCode) (hlook : codes code = some cc) (v : String)
    (n : Nat) :
    tokenEndpoint h (consumeCode codes code) code v n =
      Except.error OAuthError.invalid_grant := by
  have hc : consumeCode codes code code = some { cc with consumed := true } := by
    rw [consumeCode_self, hlook]
    rfl
  simp [tokenEndpoint, hc]

lemma append_slash_ne (s : String) : s ++ "/" ≠ s := by
  intro h
  have hlen := congrArg String.length h
  rw [String.length_append] at hlen
  have hone : ("/" : String).length = 1 := rfl
  rw [hone] at hlen
  omega

/-! ### Claim theorems -/

/-- C5: if either Google client credential is missing (empty) at startup,
the entrypoint raises SystemExit(1) before the HTTP server starts and never
reaches the serving state; startup proceeds to serving exactly when both
credentials are non-empty. -/
theorem startup_missing_credentials_fatal (env : Env) :
    (serverMain env = Except.error 1 ↔
      (GOOGLE_CLIENT_ID env = "" ∨ GOOGLE_CLIENT_SECRET env = "")) ∧
    (serverMain env = Except.ok "serving" ↔
      (GOOGLE_CLIENT_ID env ≠ "" ∧ GOOGLE_CLIENT_SECRET env ≠ "")) := by
  by_cases h1 : GOOGLE_CLIENT_ID env = "" <;>
    by_cases h2 : GOOGLE_CLIENT_SECRET env = "" <;>
      simp [serverMain, startupCheck, h1, h2]

/-- Witness for C5: with no environment configured both credentials default
to the empty string and the entrypoint exits with status 1. -/
theorem startup_missing_credentials_fatal_witness :
    serverMain emptyEnv = Except.error 1 :=
  (startup_missing_credentials_fatal emptyEnv).1.mpr (Or.inl rfl)

/-- C9: the healthz handler deterministically returns status "ok" together
with the configured base_url, mcp_path and scopes, and a resource field
equal to the exact concatenation of BASE_URL and MCP_PATH; it does not
depend on the request. -/
theorem healthz_reports_configured_resource (env : Env) (req req2 : String) :
    healthz env req =
      { status := "ok"
      , base_url := BASE_URL env
      , mcp_path := MCP_PATH env
      , resource := BASE_URL env ++ MCP_PATH env
      , scopes := REQUIRED_SCOPES env } ∧
    (healthz env req).resource = RESOURCE env ∧
    healthz env req = healthz env req2 :=
  ⟨rfl, rfl, rfl⟩

/-- C10: divide_numbers raises ValueError("Division by zero is not
allowed.") exactly when b = 0 and otherwise returns a / b with the rendered
expression, and multiply_numbers always returns a * b with the rendered
expression. -/
theorem math_tools_division_guard (render : ℚ → String) (a b : ℚ) :
    (divide_numbers render ⟨a, b⟩ =
        Except.error "Division by zero is not allowed." ↔ b = 0) ∧
    (b ≠ 0 → divide_numbers render ⟨a, b⟩ =
        Except.ok { result := a / b, expression := render a ++ " / " ++ render b }) ∧
    multiply_numbers render ⟨a, b⟩ =
      { result := a * b, expression := render a ++ " * " ++ render b } := by
  refine ⟨?_, ?_, rfl⟩
  · by_cases hb : b = 0 <;> simp [divide_numbers, hb]
  · intro hb
    simp [divide_numbers, hb]

/-- Witness for C10: dividing 3 by 2 returns 3 / 2 with the rendered
expression. -/
theorem math_tools_division_guard_witness :
    (2 : ℚ) ≠ 0 ∧
    divide_numbers toString ⟨3, 2⟩ =
      Except.ok
        { result := (3 : ℚ) / 2
        , expression := toString (3 : ℚ) ++ " / " ++ toString (2 : ℚ) } :=
  ⟨by norm_num, (math_tools_division_guard toString 3 2).2.1 (by norm_num)⟩

/-- A concrete issued token bound to the default resource, for witnesses. -/
def witToken : IssuedToken :=
  { token := "tok-1"
  , resource := "http://localhost:8005/mcp"
  , scopes := ["openid"]
  , expiresAt := 1000 }

/-- A concrete token store holding only `witToken`, for witnesses. -/
def witTokenStore : TokenStore := fun k => if k = "tok-1" then some witToken else none

/-- A concrete in-flight authorization attempt, for witnesses. -/
def witAuthState : AuthorizationRequestState :=
  { stateToken := "st-1"
  , client_id := "client-1"
  , codeChallenge := "challenge-1"
  , codeChallengeMethod := PKCEMethod.plain
  , redirectUri := "http://localhost:4321/cb"
  , resource := "http://localhost:8005/mcp"
  , scopes := ["openid"]
  , createdAt := 100
  , consumed := false }

/-- A concrete auth-state store holding only `witAuthState`, for witnesses. -/
def witAuthStore : AuthStateStore := fun k => if k = "st-1" then some witAuthState else none

/-- A concrete client-facing authorization code record, for witnesses. -/
def witClientCode : ClientCode :=
  { codeChallenge := "verifier-1"
  , codeChallengeMethod := PKCEMethod.plain
  , issued := witToken
  , createdAt := 100
  , consumed := false }

/-- A concrete code store holding only `witClientCode`, for witnesses. -/
def witCodeStore : CodeStore := fun k => if k = "code-1" then some witClientCode else none

/-- C1: a known, unexpired bearer token is accepted exactly when its bound
resource indicator equals the endpoint URL byte-for-byte; in particular a
token is rejected against its own resource with a trailing slash appended,
and an authorize request whose resource parameter is the configured
resource with a trailing slash (or any other non-equal value) is rejected
with invalid_target. -/
theorem bearer_resource_exact_match (tokens : TokenStore) (tv : String)
    (tok : IssuedToken) (endpointUrl : String) (now : Nat) (env : Env)
    (hlook : tokens tv = some tok) (hlive : now ≤ tok.expiresAt) :
    (validateBearer tokens (some tv) endpointUrl now = Except.ok tok ↔
      tok.resource = endpointUrl) ∧
    (tok.resource ≠ endpointUrl →
      validateBearer tokens (some tv) endpointUrl now =
        Except.error OAuthError.unauthorized) ∧
    (validateBearer tokens (some tv) (tok.resource ++ "/") now =
      Except.error OAuthError.unauthorized) ∧
    (authorizeResourceCheck env (RESOURCE env ++ "/") =
      Except.error OAuthError.invalid_target) ∧
    (∀ p, p ≠ RESOURCE env →
      authorizeResourceCheck env p = Except.error OAuthError.invalid_target) := by
  have hnl : ¬(tok.expiresAt < now) := Nat.not_lt.mpr hlive
  refine ⟨?_, ?_, ?_, ?_, ?_⟩
  · by_cases hr : tok.resource = endpointUrl <;> simp [validateBearer, hlook, hnl, hr]
  · intro hr
    simp [validateBearer, hlook, hnl, hr]
  · have hne : tok.resource ≠ tok.resource ++ "/" :=
      fun hcontr => append_slash_ne tok.resource hcontr.symm
    simp [validateBearer, hlook, hnl, hne]
  · have hne : ¬(RESOURCE env ++ "/" = RESOURCE env) := append_slash_ne (RESOURCE env)
    simp [authorizeResourceCheck, hne]
  · intro p hp
    simp [authorizeResourceCheck, hp]

/-- Witness for C1: the concrete token bound to
"http://localhost:8005/mcp" is rejected against the same URL with a
trailing slash, and under default configuration an authorize request for
the configured resource with a trailing slash is rejected with
invalid_target. -/
theorem bearer_resource_exact_match_witness :
    validateBearer witTokenStore (some "tok-1") (witToken.resource ++ "/") 500 =
      Except.error OAuthError.unauthorized ∧
    authorizeResourceCheck emptyEnv (RESOURCE emptyEnv ++ "/") =
      Except.error OAuthError.invalid_target := by
  have h := bearer_resource_exact_match witTokenStore "tok-1" witToken
    (witToken.resource ++ "/") 500 emptyEnv rfl (by decide)
  exact ⟨h.2.2.1, h.2.2.2.1⟩

/-- C2: a fresh, unexpired AuthorizationRequestState is redeemed by the
first matching upstream callback, and once consumed every later redemption
attempt with the same state token fails with invalid_state — in
particular zero further redemptions succeed across any subsequent sequence
of callback requests. -/
theorem auth_state_single_use (store : AuthStateStore) (t : String)
    (st : AuthorizationRequestState) (now : Nat)
    (hlook : store t = some st) (hfresh : st.consumed = false)
    (hlive : now ≤ st.createdAt + authStateTTL) :
    upstreamCallback store t now = Except.ok (st, consumeAuthState store t) ∧
    (∀ now2, upstreamCallback (consumeAuthState store t) t now2 =
      Except.error OAuthError.invalid_state) ∧
    (∀ reqs, countRedemptions (consumeAuthState store t) t reqs = 0) := by
  refine ⟨?_, ?_, ?_⟩
  · simp [upstreamCallback, hlook, hfresh, Nat.not_lt.mpr hlive]
  · intro now2
    exact upstreamCallback_of_consumed _ _ _ (consumedAt_consume store t)
  · intro reqs
    exact countRedemptions_eq_zero t reqs _ (consumedAt_consume store t)

/-- Witness for C2: the concrete attempt is redeemed once at time 200,
after which a second attempt at time 300 fails with invalid_state and a
further two-request sequence contains no successful redemption. -/
theorem auth_state_single_use_witness :
    upstreamCallback witAuthStore "st-1" 200 =
      Except.ok (witAuthState, consumeAuthState witAuthStore "st-1") ∧
    upstreamCallback (consumeAuthState witAuthStore "st-1") "st-1" 300 =
      Except.error OAuthError.invalid_state ∧
    countRedemptions (consumeAuthState witAuthStore "st-1") "st-1"
      [("st-1", 300), ("st-1", 400)] = 0 := by
  have h := auth_state_single_use witAuthStore "st-1" witAuthState 200 rfl rfl (by decide)
  exact ⟨h.1, h.2.1 300, h.2.2 [("st-1", 300), ("st-1", 400)]⟩

/-- C3: for a known, fresh, unexpired client-facing authorization code,
the token endpoint returns the prepared IssuedToken exactly when the PKCE
verifier matches the recorded challenge (S256 via the hash `h`, or plain),
fails with invalid_grant on a mismatch, fails with invalid_grant on every
attempt after the code is consumed, and fails with invalid_grant past the
60-second code lifetime regardless of the verifier. -/
theorem token_endpoint_pkce (h : String → String) (codes : CodeStore)
    (code verifier : String) (cc : ClientCode) (now : Nat)
    (hlook : codes code = some cc) (hfresh : cc.consumed = false)
    (hlive : now ≤ cc.createdAt + clientCodeTTL) :
    (tokenEndpoint h codes code verifier now =
        Except.ok (cc.issued, consumeCode codes code) ↔
      pkceMatch h cc.codeChallengeMethod cc.codeChallenge verifier = true) ∧
    (pkceMatch h cc.codeChallengeMethod cc.codeChallenge verifier = false →
      tokenEndpoint h codes code verifier now =
        Except.error OAuthError.invalid_grant) ∧
    (∀ v2 n2, tokenEndpoint h (consumeCode codes code) code v2 n2 =
      Except.error OAuthError.invalid_grant) ∧
    (∀ v2 n2, cc.createdAt + clientCodeTTL < n2 →
      tokenEndpoint h codes code v2 n2 = Except.error OAuthError.invalid_grant) := by
  have hnl : ¬(cc.createdAt + clientCodeTTL < now) := Nat.not_lt.mpr hlive
  refine ⟨?_, ?_, ?_, ?_⟩
  · cases hpm : pkceMatch h cc.codeChallengeMethod cc.codeChallenge verifier <;>
      simp [tokenEndpoint, hlook, hfresh, hnl, hpm]
  · intro hm
    simp [tokenEndpoint, hlook, hfresh, hnl, hm]
  · intro v2 n2
    exact tokenEndpoint_consumed_code h codes code cc hlook v2 n2
  · intro v2 n2 hlate
    simp [tokenEndpoint, hlook, hfresh, hlate]

/-- Witness for C3: the concrete code is exchanged successfully with the
matching plain verifier at time 150, and a second exchange of the consumed
code fails with invalid_grant. -/
theorem token_endpoint_pkce_witness :
    tokenEndpoint (fun s => s) witCodeStore "code-1" "verifier-1" 150 =
      Except.ok (witClientCode.issued, consumeCode witCodeStore "code-1") ∧
    tokenEndpoint (fun s => s) (consumeCode witCodeStore "code-1") "code-1"
      "verifier-1" 150 = Except.error OAuthError.invalid_grant := by
  have h := token_endpoint_pkce (fun s => s) witCodeStore "code-1" "verifier-1"
    witClientCode 150 rfl rfl (by decide)
  exact ⟨h.1.mpr (by decide), h.2.2.1 "verifier-1" 150⟩

/-- C4: the default allow-list configured in server.py parses to the
localhost and 127.0.0.1 wildcard patterns, and dynamic client registration
returns a RegisteredClient under the freshly generated client_id exactly
when every requested redirect URI matches some allow-list pattern, and
fails with invalid_redirect_uri when any requested redirect URI matches no
pattern. -/
theorem dcr_redirect_allowlist (allowlist : List String) (freshId : String)
    (uris : List String) (now : Nat) :
    ALLOWED_CLIENT_REDIRECTS emptyEnv = ["http://localhost:*", "http://127.0.0.1:*"] ∧
    (registerClient allowlist freshId uris now =
        Except.ok { client_id := freshId, redirect_uris := uris, createdAt := now } ↔
      ∀ uri ∈ uris, matchesAllowList allowlist uri = true) ∧
    ((¬ ∀ uri ∈ uris, matchesAllowList allowlist uri = true) →
      registerClient allowlist freshId uris now =
        Except.error OAuthError.invalid_redirect_uri) := by
  refine ⟨by decide, ?_, ?_⟩
  · by_cases hall : ∀ uri ∈ uris, matchesAllowList allowlist uri = true
    · have hb : uris.all (fun uri => matchesAllowList allowlist uri) = true := by
        rw [List.all_eq_true]
        exact hall
      exact ⟨fun _ => hall, fun _ => by simp [registerClient, hb]⟩
    · have hb : ¬(uris.all (fun uri => matchesAllowList allowlist uri) = true) := by
        rw [List.all_eq_true]
        exact hall
      simp [registerClient, hb, hall]
  · intro hcon
    have hb : ¬(uris.all (fun uri => matchesAllowList allowlist uri) = true) := by
      rw [List.all_eq_true]
      exact hcon
    simp [registerClient, hb]

/-- Witness for C4: under the default allow-list a loopback redirect URI on
a random port registers successfully with the generated client_id. -/
theorem dcr_redirect_allowlist_witness :
    registerClient (ALLOWED_CLIENT_REDIRECTS emptyEnv) "client-1"
      ["http://localhost:53530/oauth/callback"] 7 =
      Except.ok
        { client_id := "client-1"
        , redirect_uris := ["http://localhost:53530/oauth/callback"]
        , createdAt := 7 } :=
  (dcr_redirect_allowlist (ALLOWED_CLIENT_REDIRECTS emptyEnv) "client-1"
    ["http://localhost:53530/oauth/callback"] 7).2.1.mpr (by decide)

/-- C6: an AuthorizationRequestState is never redeemable past its creation
time plus the fixed 10-minute TTL: the upstream callback at any such time
is rejected with invalid_state, exactly as if the state token were
unknown. -/
theorem auth_state_ttl_expiry (store : AuthStateStore) (t : String)
    (st : AuthorizationRequestState) (now : Nat)
    (hlook : store t = some st) (hexp : st.createdAt + authStateTTL < now) :
    upstreamCallback store t now = Except.error OAuthError.invalid_state ∧
    upstreamCallback store t now = upstreamCallback emptyAuthStore t now := by
  have h1 : upstreamCallback store t now = Except.error OAuthError.invalid_state := by
    by_cases hc : st.consumed <;> simp [upstreamCallback, hlook, hc, hexp]
  refine ⟨h1, ?_⟩
  rw [h1]
  rfl

/-- Witness for C6: the concrete attempt created at time 100 is rejected
with invalid_state when the callback arrives at time 760, eleven minutes
later. -/
theorem auth_state_ttl_expiry_witness :
    upstreamCallback witAuthStore "st-1" 760 = Except.error OAuthError.invalid_state :=
  (auth_state_ttl_expiry witAuthStore "st-1" witAuthState 760 rfl (by decide)).1

/-- C7: when two token-exchange requests race on the same fresh
client-facing code, both with matching verifiers and within the code
lifetime, then in every interleaving of the atomic check-and-invalidate
consumption exactly one request obtains the IssuedToken and the other is
rejected with invalid_grant. -/
theorem race_same_code_one_winner (h : String → String) (codes : CodeStore)
    (code v1 v2 : String) (n1 n2 : Nat) (cc : ClientCode) (firstWins : Bool)
    (hlook : codes code = some cc) (hfresh : cc.consumed = false)
    (hm1 : pkceMatch h cc.codeChallengeMethod cc.codeChallenge v1 = true)
    (hm2 : pkceMatch h cc.codeChallengeMethod cc.codeChallenge v2 = true)
    (hl1 : n1 ≤ cc.createdAt + clientCodeTTL)
    (hl2 : n2 ≤ cc.createdAt + clientCodeTTL) :
    raceExchange h codes code v1 v2 n1 n2 firstWins =
        (Except.ok cc.issued, Except.error OAuthError.invalid_grant) ∨
    raceExchange h codes code v1 v2 n1 n2 firstWins =
        (Except.error OAuthError.invalid_grant, Except.ok cc.issued) := by
  cases firstWins with
  | true =>
    left
    have e1 := tokenEndpoint_success h codes code v1 n1 cc hlook hfresh hm1 hl1
    have e2 := tokenEndpoint_consumed_code h codes code cc hlook v2 n2
    simp [raceExchange, exchangeStep, e1, e2]
  | false =>
    right
    have e2 := tokenEndpoint_success h codes code v2 n2 cc hlook hfresh hm2 hl2
    have e1 := tokenEndpoint_consumed_code h codes code cc hlook v1 n1
    simp [raceExchange, exchangeStep, e2, e1]

/-- Witness for C7: two concrete exchanges of the same code with matching
verifiers, under each of the two interleavings, leave exactly one winner. -/
theorem race_same_code_one_winner_witness :
    (raceExchange (fun s => s) witCodeStore "code-1" "verifier-1" "verifier-1"
        110 120 true =
        (Except.ok witClientCode.issued, Except.error OAuthError.invalid_grant) ∨
      raceExchange (fun s => s) witCodeStore "code-1" "verifier-1" "verifier-1"
        110 120 true =
        (Except.error OAuthError.invalid_grant, Except.ok witClientCode.issued)) ∧
    (raceExchange (fun s => s) witCodeStore "code-1" "verifier-1" "verifier-1"
        110 120 false =
        (Except.ok witClientCode.issued, Except.error OAuthError.invalid_grant) ∨
      raceExchange (fun s => s) witCodeStore "code-1" "verifier-1" "verifier-1"
        110 120 false =
        (Except.error OAuthError.invalid_grant, Except.ok witClientCode.issued)) :=
  ⟨race_same_code_one_winner (fun s => s) witCodeStore "code-1" "verifier-1"
      "verifier-1" 110 120 witClientCode true rfl rfl (by decide) (by decide)
      (by decide) (by decide),
    race_same_code_one_winner (fun s => s) witCodeStore "code-1" "verifier-1"
      "verifier-1" 110 120 witClientCode false rfl rfl (by decide) (by decide)
      (by decide) (by decide)⟩

/-- C8: whenever bearer validation fails for a request to the protected
RPC endpoint — token missing, unknown, expired, or bound to a different
resource — the endpoint returns the structured 401 response whose
WWW-Authenticate header points at the protected-resource metadata URL, and
the protected tool handler does not run; the response is always this
structured value, never a raw exception. -/
theorem protected_endpoint_auth_challenge (env : Env) (tokens : TokenStore)
    (authHeader : Option String) (now : Nat) (handler : IssuedToken → String)
    (e : OAuthError)
    (hfail : validateBearer tokens authHeader (RESOURCE env) now = Except.error e) :
    handleMcp env tokens authHeader now handler =
      ({ status := 401
       , wwwAuthenticate := some
           ("Bearer error=\"invalid_token\", resource_metadata=\""
             ++ protectedResourceMetadataUrl env ++ "\"")
       , body := "unauthorized" }, false) := by
  simp [handleMcp, hfail]

/-- Witness for C8: a request with no bearer token gets the 401 challenge
and the tool handler does not run. -/
theorem protected_endpoint_auth_challenge_witness :
    handleMcp emptyEnv witTokenStore none 0 (fun _ => "tool-output") =
      ({ status := 401
       , wwwAuthenticate := some
           ("Bearer error=\"invalid_token\", resource_metadata=\""
             ++ protectedResourceMetadataUrl emptyEnv ++ "\"")
       , body := "unauthorized" }, false) :=
  protected_endpoint_auth_challenge emptyEnv witTokenStore none 0
    (fun _ => "tool-output") OAuthError.unauthorized rfl

end MCPStreamableHttp
